import Mathlib

/-!
Shallow embedding of the `nsc_frame` crate (file `src/nsc_frame/src/lib.rs`)
and of the `hello_stepper` example (file `src/examples/hello_stepper/src/main.rs`).

Rust `&mut self` methods are modelled as pure functions returning the updated
value alongside the result.  The backend stepper contract
`fn step(&mut self, frame: &mut Frame<M>) -> Result<StepResult, String>`
becomes a function `S → Frame M → Except String StepResult × Frame M × S`
(the result-or-error, plus the frame and stepper state after the call), and
the arbiter contract `fn decide(&mut self, frame: &Frame<M>) -> Decision`
becomes `A → Frame M → Decision × A`.  The `u32` cursor position is a `Nat`
kept below `2 ^ 32`, with saturating addition made explicit.
-/

inductive FrameState where
  | Prefill
  | Decode
  | Finished
  | Cancelled
deriving DecidableEq, Repr

inductive StepOutcome where
  | Advanced
  | Yielded
  | Finished
deriving DecidableEq, Repr

inductive StopReason where
  | MaxTokens
  | Eos
  | Cancelled
  | BackendError
deriving DecidableEq, Repr

structure Receipt where
  kind : String
  value_u64 : Nat
deriving DecidableEq, Repr

structure StepResult where
  outcome : StepOutcome
  emitted_token : Option Nat
  stop_reason : Option StopReason
  receipts : List Receipt
deriving DecidableEq, Repr

def StepResult.advanced (token : Option Nat) : StepResult :=
  { outcome := .Advanced
    emitted_token := token
    stop_reason := none
    receipts := [] }

def StepResult.finished (reason : StopReason) : StepResult :=
  { outcome := .Finished
    emitted_token := none
    stop_reason := some reason
    receipts := [] }

structure FrameCursor where
  position : Nat
deriving DecidableEq, Repr

def FrameCursor.default : FrameCursor := { position := 0 }

structure FrameLimits where
  max_tokens : Nat
deriving DecidableEq, Repr

structure Frame (M : Type) where
  state : FrameState
  cursor : FrameCursor
  limits : FrameLimits
  mem : M
  prompt_token_ids : List Nat
  prompt_index : Nat
  generated_token_ids : List Nat
  tokens_generated : Nat
deriving DecidableEq, Repr

def Frame.new {M : Type} (mem : M) (max_tokens : Nat) : Frame M :=
  { state := .Prefill
    cursor := FrameCursor.default
    limits := { max_tokens := max_tokens }
    mem := mem
    prompt_token_ids := []
    prompt_index := 0
    generated_token_ids := []
    tokens_generated := 0 }

def Frame.cancel {M : Type} (f : Frame M) : Frame M :=
  { f with state := .Cancelled }

def Frame.with_prompt {M : Type} (mem : M) (max_tokens : Nat)
    (prompt_token_ids : List Nat) : Frame M :=
  { state := .Prefill
    cursor := FrameCursor.default
    limits := { max_tokens := max_tokens }
    mem := mem
    prompt_token_ids := prompt_token_ids
    prompt_index := 0
    generated_token_ids := []
    tokens_generated := 0 }

inductive Decision where
  | Allow
  | Yield
  | Refuse
deriving DecidableEq, Repr

structure NoArbiter where
deriving DecidableEq, Repr

def NoArbiter.decide {M : Type} (a : NoArbiter) (_frame : Frame M) :
    Decision × NoArbiter :=
  (.Allow, a)

structure Driver (M S A : Type) where
  frame : Frame M
  stepper : S
  arbiter : A
deriving DecidableEq, Repr

def Driver.new {M S : Type} (frame : Frame M) (stepper : S) :
    Driver M S NoArbiter :=
  { frame := frame, stepper := stepper, arbiter := {} }

def Driver.with_arbiter {M S A : Type} (frame : Frame M) (stepper : S)
    (arbiter : A) : Driver M S A :=
  { frame := frame, stepper := stepper, arbiter := arbiter }

def Driver.step {M S A : Type}
    (stepperStep : S → Frame M → Except String StepResult × Frame M × S)
    (arbiterDecide : A → Frame M → Decision × A)
    (d : Driver M S A) : Except String StepResult × Driver M S A :=
  match d.frame.state with
  | .Finished => (.ok (StepResult.finished .MaxTokens), d)
  | .Cancelled => (.ok (StepResult.finished .Cancelled), d)
  | _ =>
    match arbiterDecide d.arbiter d.frame with
    | (.Allow, a2) =>
      match stepperStep d.stepper d.frame with
      | (r, f2, s2) => (r, { frame := f2, stepper := s2, arbiter := a2 })
    | (.Yield, a2) =>
      (.ok { outcome := .Yielded
             emitted_token := none
             stop_reason := none
             receipts := [{ kind := "arbiter.yield", value_u64 := 1 }] },
       { d with arbiter := a2 })
    | (.Refuse, a2) =>
      (.ok (StepResult.finished .Cancelled),
       { d with frame := d.frame.cancel, arbiter := a2 })

/-- The results of `n` consecutive `Driver::step` calls, together with the
driver after those calls. -/
def Driver.stepN {M S A : Type}
    (stepperStep : S → Frame M → Except String StepResult × Frame M × S)
    (arbiterDecide : A → Frame M → Decision × A) :
    Nat → Driver M S A → List (Except String StepResult) × Driver M S A
  | 0, d => ([], d)
  | n + 1, d =>
    match Driver.step stepperStep arbiterDecide d with
    | (r, d2) =>
      match Driver.stepN stepperStep arbiterDecide n d2 with
      | (rs, d3) => (r :: rs, d3)

/-- The driver after `n` consecutive `Driver::step` calls. -/
def Driver.iterate {M S A : Type}
    (stepperStep : S → Frame M → Except String StepResult × Frame M × S)
    (arbiterDecide : A → Frame M → Decision × A) :
    Nat → Driver M S A → Driver M S A
  | 0, d => d
  | n + 1, d =>
    Driver.iterate stepperStep arbiterDecide n
      (Driver.step stepperStep arbiterDecide d).2

/-- Fuelled model of `Driver::run_to_completion`: loops `step()`, returning
the error as soon as a step fails, stopping on a `Finished` outcome, and also
reporting how many internal `step()` calls were made.  `none` means the fuel
ran out before the loop stopped. -/
def Driver.run_to_completion {M S A : Type}
    (stepperStep : S → Frame M → Except String StepResult × Frame M × S)
    (arbiterDecide : A → Frame M → Decision × A) :
    Nat → Driver M S A → Option (Except String Unit × Nat × Driver M S A)
  | 0, _ => none
  | n + 1, d =>
    match Driver.step stepperStep arbiterDecide d with
    | (.error e, d2) => some (.error e, 1, d2)
    | (.ok r, d2) =>
      match r.outcome with
      | .Finished => some (.ok (), 1, d2)
      | _ =>
        match Driver.run_to_completion stepperStep arbiterDecide n d2 with
        | none => none
        | some (res, k, d3) => some (res, k + 1, d3)

structure NoopStepper where
deriving DecidableEq, Repr

structure NoopMem where
deriving DecidableEq, Repr

/-- `u32::saturating_add` on cursor positions kept as `Nat` values below
`2 ^ 32`. -/
def u32SaturatingAdd (p n : Nat) : Nat :=
  min (p + n) (2 ^ 32 - 1)

def NoopStepper.step (s : NoopStepper) (frame : Frame NoopMem) :
    Except String StepResult × Frame NoopMem × NoopStepper :=
  match frame.state with
  | .Prefill =>
    (.ok (StepResult.advanced none), { frame with state := .Decode }, s)
  | .Decode =>
    if frame.tokens_generated ≥ frame.limits.max_tokens then
      (.ok (StepResult.finished .MaxTokens), { frame with state := .Finished }, s)
    else
      let tok := frame.cursor.position % 256
      (.ok (StepResult.advanced (some tok)),
       { frame with
         generated_token_ids := frame.generated_token_ids ++ [tok]
         tokens_generated := frame.tokens_generated + 1
         cursor := { position := u32SaturatingAdd frame.cursor.position 1 } },
       s)
  | .Finished => (.ok (StepResult.finished .MaxTokens), frame, s)
  | .Cancelled => (.ok (StepResult.finished .Cancelled), frame, s)

/-- The example arbiter from `hello_stepper`: a `u32` tick counter bumped on
every decision, yielding whenever the bumped counter is divisible by 3. -/
structure TickArbiter where
  ticks : Nat
deriving DecidableEq, Repr

def TickArbiter.decide {M : Type} (a : TickArbiter) (_frame : Frame M) :
    Decision × TickArbiter :=
  let t := (a.ticks + 1) % 2 ^ 32
  if t % 3 = 0 then (.Yield, { ticks := t }) else (.Allow, { ticks := t })

/-- An arbiter that yields on every decision (no such concrete type exists in
the source; it instantiates the `Arbiter` contract for the always-Yield case
the spec discusses). -/
structure YieldArbiter where
deriving DecidableEq, Repr

def YieldArbiter.decide {M : Type} (a : YieldArbiter) (_frame : Frame M) :
    Decision × YieldArbiter :=
  (.Yield, a)

/-- An arbiter that refuses on every decision (instantiates the `Arbiter`
contract for the Refuse case). -/
structure RefuseArbiter where
deriving DecidableEq, Repr

def RefuseArbiter.decide {M : Type} (a : RefuseArbiter) (_frame : Frame M) :
    Decision × RefuseArbiter :=
  (.Refuse, a)

/-- The `StepResult` the driver fabricates on a Yield decision. -/
def yieldStepResult : StepResult :=
  { outcome := .Yielded
    emitted_token := none
    stop_reason := none
    receipts := [{ kind := "arbiter.yield", value_u64 := 1 }] }

def scenarioAStart : Driver NoopMem NoopStepper NoArbiter :=
  Driver.new (Frame.new {} 3) {}

def scenarioBStart : Driver NoopMem NoopStepper TickArbiter :=
  Driver.with_arbiter (Frame.new {} 8) {} { ticks := 0 }

def scenarioBAllowStart : Driver NoopMem NoopStepper NoArbiter :=
  Driver.new (Frame.new {} 8) {}

def scenarioCStart : Driver NoopMem NoopStepper NoArbiter :=
  Driver.new (Frame.new {} 0) {}

/-- A driver whose frame has already reached `Finished`. -/
def finishedDriver : Driver NoopMem NoopStepper NoArbiter :=
  Driver.new { Frame.new {} 3 with state := .Finished } {}

/-- A driver whose frame has already reached `Cancelled`. -/
def cancelledDriver : Driver NoopMem NoopStepper NoArbiter :=
  Driver.new { Frame.new {} 3 with state := .Cancelled } {}

/-- A frame that has reached `Finished`. -/
def finishedFrame : Frame NoopMem :=
  { Frame.new {} 3 with state := .Finished }

/-- A frame sitting in `Decode` with remaining token budget. -/
def decodeFrame : Frame NoopMem :=
  { Frame.new {} 3 with state := .Decode }

/-- A `Decode` frame whose cursor already sits at `u32::MAX`. -/
def maxCursorFrame : Frame NoopMem :=
  { Frame.new {} 3 with state := .Decode, cursor := { position := 2 ^ 32 - 1 } }

/-- Fuelled observer counting, along a run that stops at the first `Finished`
outcome, how many calls were gated by an `Allow` decision (i.e. calls made
from a non-terminal state on which the arbiter answered `Allow`). -/
def Driver.allowCallsUntilFinished {M S A : Type}
    (stepperStep : S → Frame M → Except String StepResult × Frame M × S)
    (arbiterDecide : A → Frame M → Decision × A) :
    Nat → Driver M S A → Option Nat
  | 0, _ => none
  | n + 1, d =>
    let gated : Nat :=
      match d.frame.state with
      | .Finished => 0
      | .Cancelled => 0
      | _ => match (arbiterDecide d.arbiter d.frame).1 with
             | .Allow => 1
             | _ => 0
    match Driver.step stepperStep arbiterDecide d with
    | (.error _, _) => none
    | (.ok r, d2) =>
      if r.outcome = .Finished then some gated
      else
        match Driver.allowCallsUntilFinished stepperStep arbiterDecide n d2 with
        | none => none
        | some k => some (gated + k)

/-- Fuelled observer: the total number of `step()` calls made until the first
`Finished` outcome (that call included). -/
def Driver.callsUntilFinished {M S A : Type}
    (stepperStep : S → Frame M → Except String StepResult × Frame M × S)
    (arbiterDecide : A → Frame M → Decision × A) :
    Nat → Driver M S A → Option Nat
  | 0, _ => none
  | n + 1, d =>
    match Driver.step stepperStep arbiterDecide d with
    | (.error _, _) => none
    | (.ok r, d2) =>
      if r.outcome = .Finished then some 1
      else
        match Driver.callsUntilFinished stepperStep arbiterDecide n d2 with
        | none => none
        | some k => some (k + 1)

/-- `tokens_generated` matches the length of the generated-token log. -/
def counterInv {M : Type} (f : Frame M) : Prop :=
  f.tokens_generated = f.generated_token_ids.length

theorem Driver.step_of_finished {M S A : Type}
    (ss : S → Frame M → Except String StepResult × Frame M × S)
    (ad : A → Frame M → Decision × A) (d : Driver M S A)
    (h : d.frame.state = .Finished) :
    Driver.step ss ad d = (.ok (StepResult.finished .MaxTokens), d) := by
  unfold Driver.step
  rw [h]

theorem Driver.step_of_cancelled {M S A : Type}
    (ss : S → Frame M → Except String StepResult × Frame M × S)
    (ad : A → Frame M → Decision × A) (d : Driver M S A)
    (h : d.frame.state = .Cancelled) :
    Driver.step ss ad d = (.ok (StepResult.finished .Cancelled), d) := by
  unfold Driver.step
  rw [h]

theorem Driver.stepN_succ {M S A : Type}
    (ss : S → Frame M → Except String StepResult × Frame M × S)
    (ad : A → Frame M → Decision × A) (d : Driver M S A) (n : Nat) :
    Driver.stepN ss ad (n + 1) d =
      ((Driver.step ss ad d).1 ::
         (Driver.stepN ss ad n (Driver.step ss ad d).2).1,
       (Driver.stepN ss ad n (Driver.step ss ad d).2).2) := rfl

theorem Driver.iterate_succ_out {M S A : Type}
    (ss : S → Frame M → Except String StepResult × Frame M × S)
    (ad : A → Frame M → Decision × A) (n : Nat) (d : Driver M S A) :
    Driver.iterate ss ad (n + 1) d =
      (Driver.step ss ad (Driver.iterate ss ad n d)).2 := by
  induction n generalizing d with
  | zero => rfl
  | succ k ih => exact ih (Driver.step ss ad d).2

theorem Driver.stepN_of_finished {M S A : Type}
    (ss : S → Frame M → Except String StepResult × Frame M × S)
    (ad : A → Frame M → Decision × A) (d : Driver M S A)
    (h : d.frame.state = .Finished) (n : Nat) :
    Driver.stepN ss ad n d =
      (List.replicate n (.ok (StepResult.finished .MaxTokens)), d) := by
  induction n with
  | zero => rfl
  | succ k ih =>
    rw [Driver.stepN_succ, Driver.step_of_finished ss ad d h]
    simp only [ih, List.replicate_succ]

theorem Driver.stepN_of_cancelled {M S A : Type}
    (ss : S → Frame M → Except String StepResult × Frame M × S)
    (ad : A → Frame M → Decision × A) (d : Driver M S A)
    (h : d.frame.state = .Cancelled) (n : Nat) :
    Driver.stepN ss ad n d =
      (List.replicate n (.ok (StepResult.finished .Cancelled)), d) := by
  induction n with
  | zero => rfl
  | succ k ih =>
    rw [Driver.stepN_succ, Driver.step_of_cancelled ss ad d h]
    simp only [ih, List.replicate_succ]

theorem Driver.step_of_yield {M S A : Type}
    (ss : S → Frame M → Except String StepResult × Frame M × S)
    (ad : A → Frame M → Decision × A) (d : Driver M S A)
    (hnt : d.frame.state = .Prefill ∨ d.frame.state = .Decode)
    (hy : (ad d.arbiter d.frame).1 = .Yield) :
    Driver.step ss ad d =
      (.ok yieldStepResult, { d with arbiter := (ad d.arbiter d.frame).2 }) := by
  rcases hq : ad d.arbiter d.frame with ⟨dec, a2⟩
  rw [hq] at hy
  simp only at hy
  subst hy
  unfold Driver.step
  rcases hnt with h | h <;> rw [h, hq] <;> rfl

theorem Driver.step_of_refuse {M S A : Type}
    (ss : S → Frame M → Except String StepResult × Frame M × S)
    (ad : A → Frame M → Decision × A) (d : Driver M S A)
    (hnt : d.frame.state = .Prefill ∨ d.frame.state = .Decode)
    (hr : (ad d.arbiter d.frame).1 = .Refuse) :
    Driver.step ss ad d =
      (.ok (StepResult.finished .Cancelled),
       { d with frame := { d.frame with state := .Cancelled },
                arbiter := (ad d.arbiter d.frame).2 }) := by
  rcases hq : ad d.arbiter d.frame with ⟨dec, a2⟩
  rw [hq] at hr
  simp only at hr
  subst hr
  unfold Driver.step
  rcases hnt with h | h <;> rw [h, hq] <;> rfl

theorem Driver.iterate_frame_of_always_yield {M S A : Type}
    (ss : S → Frame M → Except String StepResult × Frame M × S)
    (ad : A → Frame M → Decision × A)
    (hy : ∀ a f, (ad a f).1 = Decision.Yield) (n : Nat) :
    ∀ d : Driver M S A, d.frame.state = .Prefill ∨ d.frame.state = .Decode →
      (Driver.iterate ss ad n d).frame = d.frame := by
  induction n with
  | zero => intro d _; rfl
  | succ k ih =>
    intro d hnt
    have hstep := Driver.step_of_yield ss ad d hnt (hy d.arbiter d.frame)
    show (Driver.iterate ss ad k (Driver.step ss ad d).2).frame = d.frame
    rw [hstep]
    exact ih _ hnt

theorem noop_step_counterInv {A : Type} (ad : A → Frame NoopMem → Decision × A)
    (d : Driver NoopMem NoopStepper A) (h : counterInv d.frame) :
    counterInv (Driver.step NoopStepper.step ad d).2.frame := by
  obtain ⟨f, s, a⟩ := d
  rcases hq : ad a f with ⟨dec, a2⟩
  obtain ⟨st, c, l, m, pt, pi, g, tg⟩ := f
  unfold counterInv at h ⊢
  cases st <;> cases dec <;>
    simp only [Driver.step, NoopStepper.step, Frame.cancel, hq] <;>
    first
      | exact h
      | (split <;> simp_all)

theorem noop_step_cursor {A : Type} (ad : A → Frame NoopMem → Decision × A)
    (d : Driver NoopMem NoopStepper A)
    (h : d.frame.cursor.position ≤ 2 ^ 32 - 1) :
    d.frame.cursor.position ≤
        (Driver.step NoopStepper.step ad d).2.frame.cursor.position ∧
      (Driver.step NoopStepper.step ad d).2.frame.cursor.position ≤ 2 ^ 32 - 1 := by
  obtain ⟨f, s, a⟩ := d
  rcases hq : ad a f with ⟨dec, a2⟩
  obtain ⟨st, c, l, m, pt, pi, g, tg⟩ := f
  obtain ⟨p⟩ := c
  simp only at h
  cases st <;> cases dec <;>
    simp only [Driver.step, NoopStepper.step, Frame.cancel, hq] <;>
    first
      | exact ⟨le_refl _, h⟩
      | (split <;> simp_all [u32SaturatingAdd])

/-- C1: Scenario A — with the no-op backend, the always-Allow policy
(`NoArbiter`) and `max_tokens = 3`, the first five `step()` calls return, in
order, `Advanced` with no token (state becomes `Decode`), `Advanced` with
token 0 (cursor 1), `Advanced` with token 1 (cursor 2), `Advanced` with
token 2 (cursor 3), and `Finished(MaxTokens)`; afterwards
`generated_token_ids = [0, 1, 2]`. -/
theorem scenarioA_spec :
    (Driver.stepN NoopStepper.step NoArbiter.decide 5 scenarioAStart).1 =
      [.ok (StepResult.advanced none),
       .ok (StepResult.advanced (some 0)),
       .ok (StepResult.advanced (some 1)),
       .ok (StepResult.advanced (some 2)),
       .ok (StepResult.finished .MaxTokens)] ∧
    (Driver.iterate NoopStepper.step NoArbiter.decide 1 scenarioAStart).frame.state
      = .Decode ∧
    (Driver.iterate NoopStepper.step NoArbiter.decide 2
        scenarioAStart).frame.cursor.position = 1 ∧
    (Driver.iterate NoopStepper.step NoArbiter.decide 3
        scenarioAStart).frame.cursor.position = 2 ∧
    (Driver.iterate NoopStepper.step NoArbiter.decide 4
        scenarioAStart).frame.cursor.position = 3 ∧
    (Driver.iterate NoopStepper.step NoArbiter.decide 5
        scenarioAStart).frame.generated_token_ids = [0, 1, 2] :=
  ⟨rfl, rfl, rfl, rfl, rfl, rfl⟩

/-- C2: Idempotent termination — for any stepper and any arbiter (both
universally quantified, so neither is consulted), a driver whose frame is
`Finished` returns `Ok(Finished(MaxTokens))` and a driver whose frame is
`Cancelled` returns `Ok(Finished(Cancelled))`; in both cases the driver
(frame included) is left completely unchanged, and `n` repeated calls all
return that identical `Finished` result. -/
theorem terminal_step_idempotent {M S A : Type}
    (ss : S → Frame M → Except String StepResult × Frame M × S)
    (ad : A → Frame M → Decision × A) (d : Driver M S A) :
    (d.frame.state = .Finished →
      Driver.step ss ad d = (.ok (StepResult.finished .MaxTokens), d) ∧
      ∀ n, Driver.stepN ss ad n d =
        (List.replicate n (.ok (StepResult.finished .MaxTokens)), d)) ∧
    (d.frame.state = .Cancelled →
      Driver.step ss ad d = (.ok (StepResult.finished .Cancelled), d) ∧
      ∀ n, Driver.stepN ss ad n d =
        (List.replicate n (.ok (StepResult.finished .Cancelled)), d)) :=
  ⟨fun h => ⟨Driver.step_of_finished ss ad d h,
             Driver.stepN_of_finished ss ad d h⟩,
   fun h => ⟨Driver.step_of_cancelled ss ad d h,
             Driver.stepN_of_cancelled ss ad d h⟩⟩

/-- Witness for C2 at concrete drivers in each terminal state. -/
theorem terminal_step_idempotent_witness :
    finishedDriver.frame.state = .Finished ∧
    Driver.step NoopStepper.step NoArbiter.decide finishedDriver =
      (.ok (StepResult.finished .MaxTokens), finishedDriver) ∧
    cancelledDriver.frame.state = .Cancelled ∧
    Driver.stepN NoopStepper.step NoArbiter.decide 3 cancelledDriver =
      (List.replicate 3 (.ok (StepResult.finished .Cancelled)),
       cancelledDriver) :=
  ⟨rfl,
   ((terminal_step_idempotent NoopStepper.step NoArbiter.decide
       finishedDriver).1 rfl).1,
   rfl,
   ((terminal_step_idempotent NoopStepper.step NoArbiter.decide
       cancelledDriver).2 rfl).2 3⟩

/-- C3 counterexample: `Frame::cancel()` called on a frame in state
`Finished` does not leave its state `Finished` — it sets it to `Cancelled`,
so a terminal `Finished` frame is still mutated by `cancel()`. -/
theorem cancel_on_finished_counterexample :
    finishedFrame.state = .Finished ∧
    finishedFrame.cancel.state ≠ .Finished ∧
    finishedFrame.cancel.state = .Cancelled :=
  ⟨rfl, by decide, rfl⟩

/-- C3 amended: once a Frame is in state `Finished` or `Cancelled`,
`Driver::step()` never changes anything (frame, stepper or arbiter);
`Frame::cancel()` on a `Cancelled` frame leaves it unchanged; but
`Frame::cancel()` on a `Finished` frame mutates it, setting `state` to
`Cancelled` and changing nothing else. -/
theorem absorbing_amended {M S A : Type}
    (ss : S → Frame M → Except String StepResult × Frame M × S)
    (ad : A → Frame M → Decision × A) (d : Driver M S A) (f : Frame M) :
    ((d.frame.state = .Finished ∨ d.frame.state = .Cancelled) →
      (Driver.step ss ad d).2 = d) ∧
    (f.state = .Cancelled → f.cancel = f) ∧
    (f.state = .Finished → f.cancel = { f with state := .Cancelled }) := by
  refine ⟨fun h => ?_, fun h => ?_, fun _ => rfl⟩
  · rcases h with h | h
    · rw [Driver.step_of_finished ss ad d h]
    · rw [Driver.step_of_cancelled ss ad d h]
  · obtain ⟨st, c, l, m, pt, pi, g, tg⟩ := f
    simp only at h
    subst h
    rfl

/-- Witness for C3's amended statement at concrete terminal frames. -/
theorem absorbing_amended_witness :
    finishedDriver.frame.state = .Finished ∧
    (Driver.step NoopStepper.step NoArbiter.decide finishedDriver).2 =
      finishedDriver ∧
    (Frame.cancel { Frame.new NoopMem.mk 3 with state := .Cancelled }) =
      { Frame.new NoopMem.mk 3 with state := .Cancelled } ∧
    finishedFrame.cancel = { finishedFrame with state := .Cancelled } :=
  ⟨rfl,
   (absorbing_amended NoopStepper.step NoArbiter.decide finishedDriver
       finishedFrame).1 (Or.inl rfl),
   (absorbing_amended NoopStepper.step NoArbiter.decide finishedDriver
       { Frame.new NoopMem.mk 3 with state := .Cancelled }).2.1 rfl,
   (absorbing_amended NoopStepper.step NoArbiter.decide finishedDriver
       finishedFrame).2.2 rfl⟩

/-- A fresh driver gated by the always-Yield arbiter. -/
def yieldDriverStart : Driver NoopMem NoopStepper YieldArbiter :=
  Driver.with_arbiter (Frame.new {} 3) {} {}

/-- A fresh driver gated by the always-Refuse arbiter. -/
def refuseDriverStart : Driver NoopMem NoopStepper RefuseArbiter :=
  Driver.with_arbiter (Frame.new {} 3) {} {}

/-- C4: Yield purity — from a non-terminal state (`Prefill` or `Decode`),
when the arbiter answers `Yield`, `step()` does not call the stepper and
does not touch the frame (the resulting driver keeps the same frame and the
same stepper, only the arbiter's own state advances), and it returns exactly
`{outcome: Yielded, emitted_token: none, stop_reason: none,
receipts: [\x7b"arbiter.yield", 1\x7d]}`; consequently under an arbiter that
always yields the frame stays in its starting state after any number of
calls. -/
theorem yield_purity {M S A : Type}
    (ss : S → Frame M → Except String StepResult × Frame M × S)
    (ad : A → Frame M → Decision × A) (d : Driver M S A)
    (hnt : d.frame.state = .Prefill ∨ d.frame.state = .Decode) :
    ((ad d.arbiter d.frame).1 = .Yield →
      Driver.step ss ad d =
        (.ok yieldStepResult,
         { d with arbiter := (ad d.arbiter d.frame).2 })) ∧
    ((∀ a f, (ad a f).1 = Decision.Yield) →
      ∀ n, (Driver.iterate ss ad n d).frame = d.frame) :=
  ⟨fun hy => Driver.step_of_yield ss ad d hnt hy,
   fun hy n => Driver.iterate_frame_of_always_yield ss ad hy n d hnt⟩

/-- Witness for C4 at a concrete fresh driver under the always-Yield
arbiter. -/
theorem yield_purity_witness :
    yieldDriverStart.frame.state = .Prefill ∧
    Driver.step NoopStepper.step YieldArbiter.decide yieldDriverStart =
      (.ok yieldStepResult, yieldDriverStart) ∧
    (Driver.iterate NoopStepper.step YieldArbiter.decide 5
        yieldDriverStart).frame = yieldDriverStart.frame :=
  ⟨rfl,
   (yield_purity NoopStepper.step YieldArbiter.decide yieldDriverStart
       (Or.inl rfl)).1 rfl,
   (yield_purity NoopStepper.step YieldArbiter.decide yieldDriverStart
       (Or.inl rfl)).2 (fun _ _ => rfl) 5⟩

/-- C5: Refuse finality — from a non-terminal state (`Prefill` or `Decode`),
when the arbiter answers `Refuse`, `step()` sets the frame's state to
`Cancelled` (touching nothing else) and returns
`Ok(Finished(Cancelled))`; every one of `n` subsequent `step()` calls
returns that same `Finished(Cancelled)` result and leaves the driver
unchanged. -/
theorem refuse_finality {M S A : Type}
    (ss : S → Frame M → Except String StepResult × Frame M × S)
    (ad : A → Frame M → Decision × A) (d : Driver M S A)
    (hnt : d.frame.state = .Prefill ∨ d.frame.state = .Decode)
    (hr : (ad d.arbiter d.frame).1 = .Refuse) :
    Driver.step ss ad d =
      (.ok (StepResult.finished .Cancelled),
       { d with frame := { d.frame with state := .Cancelled },
                arbiter := (ad d.arbiter d.frame).2 }) ∧
    ∀ n, Driver.stepN ss ad n (Driver.step ss ad d).2 =
      (List.replicate n (.ok (StepResult.finished .Cancelled)),
       (Driver.step ss ad d).2) := by
  have h1 := Driver.step_of_refuse ss ad d hnt hr
  refine ⟨h1, fun n => ?_⟩
  apply Driver.stepN_of_cancelled
  rw [h1]

/-- Witness for C5 at a concrete fresh driver under the always-Refuse
arbiter. -/
theorem refuse_finality_witness :
    refuseDriverStart.frame.state = .Prefill ∧
    Driver.step NoopStepper.step RefuseArbiter.decide refuseDriverStart =
      (.ok (StepResult.finished .Cancelled),
       { refuseDriverStart with
         frame := { refuseDriverStart.frame with state := .Cancelled } }) ∧
    Driver.stepN NoopStepper.step RefuseArbiter.decide 4
        (Driver.step NoopStepper.step RefuseArbiter.decide
          refuseDriverStart).2 =
      (List.replicate 4 (.ok (StepResult.finished .Cancelled)),
       (Driver.step NoopStepper.step RefuseArbiter.decide
         refuseDriverStart).2) :=
  ⟨rfl,
   (refuse_finality NoopStepper.step RefuseArbiter.decide refuseDriverStart
       (Or.inl rfl) rfl).1,
   (refuse_finality NoopStepper.step RefuseArbiter.decide refuseDriverStart
       (Or.inl rfl) rfl).2 4⟩

/-- C6: Scenario B — no-op backend, `max_tokens = 8`, `TickArbiter` (Yield on
every 3rd decision): among the first 9 calls exactly calls 3, 6 and 9 are
`Yielded` and leave the frame unmutated, the others are `Advanced`; the run
needs 10 Allow-gated calls to finish, exactly as many as the always-Allow
run needs (where every one of its 10 calls is Allow-gated), while the total
call count only grows from 10 to 14. -/
theorem scenarioB_spec :
    (Driver.stepN NoopStepper.step TickArbiter.decide 9 scenarioBStart).1 =
      [.ok (StepResult.advanced none),
       .ok (StepResult.advanced (some 0)),
       .ok yieldStepResult,
       .ok (StepResult.advanced (some 1)),
       .ok (StepResult.advanced (some 2)),
       .ok yieldStepResult,
       .ok (StepResult.advanced (some 3)),
       .ok (StepResult.advanced (some 4)),
       .ok yieldStepResult] ∧
    (Driver.iterate NoopStepper.step TickArbiter.decide 3 scenarioBStart).frame =
      (Driver.iterate NoopStepper.step TickArbiter.decide 2 scenarioBStart).frame ∧
    (Driver.iterate NoopStepper.step TickArbiter.decide 6 scenarioBStart).frame =
      (Driver.iterate NoopStepper.step TickArbiter.decide 5 scenarioBStart).frame ∧
    (Driver.iterate NoopStepper.step TickArbiter.decide 9 scenarioBStart).frame =
      (Driver.iterate NoopStepper.step TickArbiter.decide 8 scenarioBStart).frame ∧
    Driver.allowCallsUntilFinished NoopStepper.step TickArbiter.decide 20
        scenarioBStart =
      Driver.allowCallsUntilFinished NoopStepper.step NoArbiter.decide 20
        scenarioBAllowStart ∧
    Driver.allowCallsUntilFinished NoopStepper.step TickArbiter.decide 20
        scenarioBStart = some 10 ∧
    Driver.callsUntilFinished NoopStepper.step TickArbiter.decide 20
        scenarioBStart = some 14 ∧
    Driver.callsUntilFinished NoopStepper.step NoArbiter.decide 20
        scenarioBAllowStart = some 10 :=
  ⟨rfl, rfl, rfl, rfl, rfl, rfl, rfl, rfl⟩

/-- C7: Scenario C — no-op backend, always-Allow policy, `max_tokens = 0`:
call 1 returns `Advanced` with no token and moves the state from `Prefill`
to `Decode`; call 2 returns `Finished(MaxTokens)` since `tokens_generated`
(0) has reached `max_tokens` (0); `run_to_completion()` with any fuel of at
least 2 therefore stops with `Ok` after exactly 2 internal `step()` calls,
with `generated_token_ids` still empty. -/
theorem scenarioC_spec :
    scenarioCStart.frame.state = .Prefill ∧
    (Driver.stepN NoopStepper.step NoArbiter.decide 2 scenarioCStart).1 =
      [.ok (StepResult.advanced none),
       .ok (StepResult.finished .MaxTokens)] ∧
    (Driver.iterate NoopStepper.step NoArbiter.decide 1
        scenarioCStart).frame.state = .Decode ∧
    (Driver.iterate NoopStepper.step NoArbiter.decide 1
        scenarioCStart).frame.tokens_generated = 0 ∧
    (Driver.iterate NoopStepper.step NoArbiter.decide 1
        scenarioCStart).frame.limits.max_tokens = 0 ∧
    (Driver.iterate NoopStepper.step NoArbiter.decide 2
        scenarioCStart).frame.generated_token_ids = [] ∧
    ∀ fuel, 2 ≤ fuel →
      Driver.run_to_completion NoopStepper.step NoArbiter.decide fuel
          scenarioCStart =
        some (.ok (), 2,
          Driver.iterate NoopStepper.step NoArbiter.decide 2 scenarioCStart) := by
  refine ⟨rfl, rfl, rfl, rfl, rfl, rfl, fun fuel hf => ?_⟩
  obtain ⟨k, rfl⟩ : ∃ k, fuel = k + 2 := ⟨fuel - 2, by omega⟩
  rfl

/-- Witness for C7's fuel-quantified part at fuel 5. -/
theorem scenarioC_spec_witness :
    (2 : Nat) ≤ 5 ∧
    Driver.run_to_completion NoopStepper.step NoArbiter.decide 5
        scenarioCStart =
      some (.ok (), 2,
        Driver.iterate NoopStepper.step NoArbiter.decide 2 scenarioCStart) :=
  ⟨by decide, scenarioC_spec.2.2.2.2.2.2 5 (by decide)⟩

/-- C8: Counter consistency — for a driver over the no-op backend with any
arbiter, starting from any frame built by `Frame::new` or
`Frame::with_prompt`, after every number `n` of `step()` calls the frame
satisfies `tokens_generated = length generated_token_ids`. -/
theorem counter_consistency {A : Type} (ad : A → Frame NoopMem → Decision × A)
    (s : NoopStepper) (a : A) (f0 : Frame NoopMem)
    (h0 : (∃ mem mt, f0 = Frame.new mem mt) ∨
          (∃ mem mt p, f0 = Frame.with_prompt mem mt p)) :
    ∀ n,
      (Driver.iterate NoopStepper.step ad n
          (Driver.with_arbiter f0 s a)).frame.tokens_generated =
        (Driver.iterate NoopStepper.step ad n
          (Driver.with_arbiter f0 s a)).frame.generated_token_ids.length := by
  have hInv : counterInv f0 := by
    rcases h0 with ⟨mem, mt, rfl⟩ | ⟨mem, mt, p, rfl⟩ <;> rfl
  have key : ∀ n (d : Driver NoopMem NoopStepper A), counterInv d.frame →
      counterInv (Driver.iterate NoopStepper.step ad n d).frame := by
    intro n
    induction n with
    | zero => intro d h; exact h
    | succ k ih => intro d h; exact ih _ (noop_step_counterInv ad d h)
  exact fun n => key n _ hInv

/-- Witness for C8 at a concrete fresh driver after 3 calls. -/
theorem counter_consistency_witness :
    (Driver.iterate NoopStepper.step NoArbiter.decide 3
        (Driver.with_arbiter (Frame.new NoopMem.mk 2) NoopStepper.mk
          NoArbiter.mk)).frame.tokens_generated =
      (Driver.iterate NoopStepper.step NoArbiter.decide 3
        (Driver.with_arbiter (Frame.new NoopMem.mk 2) NoopStepper.mk
          NoArbiter.mk)).frame.generated_token_ids.length :=
  counter_consistency NoArbiter.decide NoopStepper.mk NoArbiter.mk
    (Frame.new NoopMem.mk 2) (Or.inl ⟨NoopMem.mk, 2, rfl⟩) 3

/-- C9: Cursor monotonicity — for a driver over the no-op backend with any
arbiter, provided the cursor starts within the `u32` range,
`cursor.position` never decreases: after any `n` calls, the position
following the next call is at least the position before it. -/
theorem cursor_monotonic {A : Type} (ad : A → Frame NoopMem → Decision × A)
    (d : Driver NoopMem NoopStepper A)
    (h : d.frame.cursor.position ≤ 2 ^ 32 - 1) :
    ∀ n,
      (Driver.iterate NoopStepper.step ad n d).frame.cursor.position ≤
        (Driver.iterate NoopStepper.step ad (n + 1) d).frame.cursor.position := by
  have key : ∀ n (d : Driver NoopMem NoopStepper A),
      d.frame.cursor.position ≤ 2 ^ 32 - 1 →
      (Driver.iterate NoopStepper.step ad n d).frame.cursor.position ≤
          (Driver.iterate NoopStepper.step ad (n + 1) d).frame.cursor.position ∧
        (Driver.iterate NoopStepper.step ad n d).frame.cursor.position ≤
          2 ^ 32 - 1 := by
    intro n
    induction n with
    | zero =>
      intro d h
      exact ⟨(noop_step_cursor ad d h).1, h⟩
    | succ k ih =>
      intro d h
      exact ih (Driver.step NoopStepper.step ad d).2 (noop_step_cursor ad d h).2
  exact fun n => (key n d h).1

/-- Witness for C9 at a concrete fresh driver, comparing positions after
call 1 and call 2. -/
theorem cursor_monotonic_witness :
    (Driver.new (Frame.new NoopMem.mk 3)
          NoopStepper.mk).frame.cursor.position ≤ 2 ^ 32 - 1 ∧
    (Driver.iterate NoopStepper.step NoArbiter.decide 1
        (Driver.new (Frame.new NoopMem.mk 3)
          NoopStepper.mk)).frame.cursor.position ≤
      (Driver.iterate NoopStepper.step NoArbiter.decide 2
        (Driver.new (Frame.new NoopMem.mk 3)
          NoopStepper.mk)).frame.cursor.position :=
  ⟨Nat.zero_le _,
   cursor_monotonic NoArbiter.decide
     (Driver.new (Frame.new NoopMem.mk 3) NoopStepper.mk) (Nat.zero_le _) 1⟩

/-- C10: in the no-op backend's `Decode` branch (with budget remaining) the
emitted token is exactly `cursor.position % 256` at the moment of emission
and the cursor advances by saturating `u32` addition: a cursor already at
`u32::MAX` stays at `u32::MAX`, and shifting the cursor by 256 leaves the
emitted token unchanged, so token ids repeat with period 256. -/
theorem noop_decode_token_law (s : NoopStepper) (f : Frame NoopMem)
    (hd : f.state = .Decode)
    (hc : f.tokens_generated < f.limits.max_tokens) :
    (NoopStepper.step s f).1 =
      .ok (StepResult.advanced (some (f.cursor.position % 256))) ∧
    (NoopStepper.step s f).2.1.cursor.position =
      u32SaturatingAdd f.cursor.position 1 ∧
    (f.cursor.position = 2 ^ 32 - 1 →
      (NoopStepper.step s f).2.1.cursor.position = 2 ^ 32 - 1) ∧
    (NoopStepper.step s
        { f with cursor := { position := f.cursor.position + 256 } }).1 =
      .ok (StepResult.advanced (some (f.cursor.position % 256))) := by
  obtain ⟨st, ⟨p⟩, l, m, pt, pi, g, tg⟩ := f
  simp only at hd hc
  subst hd
  have hnot : ¬ tg ≥ l.max_tokens := not_le.mpr hc
  refine ⟨?_, ?_, ?_, ?_⟩
  · simp only [NoopStepper.step, if_neg hnot]
  · simp only [NoopStepper.step, if_neg hnot]
  · intro hp
    simp only at hp
    subst hp
    simp only [NoopStepper.step, if_neg hnot]
    simp [u32SaturatingAdd]
  · simp only [NoopStepper.step, if_neg hnot]
    simp [Nat.add_mod_right]

/-- Witness for C10 at a `Decode` frame with cursor 0 and at a `Decode`
frame with cursor `u32::MAX`. -/
theorem noop_decode_token_law_witness :
    decodeFrame.state = .Decode ∧
    decodeFrame.tokens_generated < decodeFrame.limits.max_tokens ∧
    (NoopStepper.step NoopStepper.mk decodeFrame).1 =
      .ok (StepResult.advanced (some (decodeFrame.cursor.position % 256))) ∧
    maxCursorFrame.cursor.position = 2 ^ 32 - 1 ∧
    (NoopStepper.step NoopStepper.mk maxCursorFrame).2.1.cursor.position =
      2 ^ 32 - 1 :=
  ⟨rfl, by decide,
   (noop_decode_token_law NoopStepper.mk decodeFrame rfl (by decide)).1,
   rfl,
   (noop_decode_token_law NoopStepper.mk maxCursorFrame rfl
       (by decide)).2.2.1 rfl⟩
